import Mathlib

/-!
Verification of the command relay daemon: the process that accepts
commands from clients over a local socket, queues them for a polling
executor, and routes each result (or a timeout failure) back to the
originating client.

The embedding is shallow. The daemon state — the correlation map
`pendingRequests`, the `commandQueue`, and the set of armed timers —
is an explicit record, and every handler of the single-threaded event
loop becomes a function on that record. Two ghost logs instrument the
state: `writes` records every write of a Result to a client socket,
and `polled` records every command handed to the executor by the pull
endpoint. The ghost logs are append-only and never read by the
handlers, so they do not alter behaviour.
-/

namespace Relay

/-- Request identifiers (the `requestId` field of a command). -/
abbrev ReqId := Nat

/-- Client connection handles (sockets accepted by the listener). -/
abbrev ConnId := Nat

/-- Handles returned by `setTimeout`; the daemon allocates a fresh one
per accepted submission. -/
abbrev TimerId := Nat

/-- A parsed client command. The source stores the parsed JSON object
whole; the relay only ever reads its `requestId` field, so the command
kind and the payload are carried as uninterpreted strings. -/
structure Command where
  type : String
  data : String
  requestId : ReqId
deriving DecidableEq, Repr

/-- A Result object as written to a client socket or posted by the
executor. Fields are optional because the three shapes the daemon
handles differ: a forwarded executor response carries a `requestId`,
while the parse-failure reply carries none. -/
structure Result where
  requestId : Option ReqId
  success : Bool
  data : Option String
  error : Option String
deriving DecidableEq, Repr

/-- A pending-call record: the value stored in `pendingRequests`,
holding the originating socket and the armed timeout handle. -/
structure Entry where
  socket : ConnId
  timeout : TimerId
deriving DecidableEq, Repr

/-- Lookup in the correlation map, modelled as an association list
(`Map.get` / `Map.has`). -/
def lookupEntry (rid : ReqId) : List (ReqId × Entry) → Option Entry
  | [] => none
  | (r, e) :: rest => if r = rid then some e else lookupEntry rid rest

/-- Insert or overwrite a key (`Map.set`): an existing key is updated
in place, a new key is appended. -/
def setEntry (rid : ReqId) (e : Entry) : List (ReqId × Entry) → List (ReqId × Entry)
  | [] => [(rid, e)]
  | (r, x) :: rest =>
    if r = rid then (rid, e) :: rest else (r, x) :: setEntry rid e rest

/-- Remove a key (`Map.delete`). -/
def eraseEntry (rid : ReqId) (l : List (ReqId × Entry)) : List (ReqId × Entry) :=
  l.filter (fun p => p.1 != rid)

/-- The armed timers of the runtime: handle, the requestId the timer
callback captured, and the socket it captured. -/
abbrev Timers := List (TimerId × ReqId × ConnId)

/-- Find an armed timer by handle. -/
def lookupTimer (t : TimerId) : Timers → Option (ReqId × ConnId)
  | [] => none
  | (t₂, rid, c) :: rest => if t₂ = t then some (rid, c) else lookupTimer t rest

/-- Disarm a timer (`clearTimeout`, and the runtime disarming a timer
the moment it fires). -/
def clearTimer (t : TimerId) (l : Timers) : Timers :=
  l.filter (fun p => p.1 != t)

/-- The whole daemon state. `writes` and `polled` are ghost logs. -/
structure DaemonState where
  pendingRequests : List (ReqId × Entry)
  commandQueue : List Command
  armed : Timers
  nextTimer : TimerId
  writes : List (ConnId × Result)
  polled : List Command
deriving DecidableEq, Repr

/-- The state at daemon start: empty map, empty queue, no timers. -/
def initState : DaemonState :=
  { pendingRequests := [], commandQueue := [], armed := [], nextTimer := 0,
    writes := [], polled := [] }

/-- The hard-coded timer duration, in milliseconds. -/
def timeoutMs : Nat := 30000

/-- The error text of the synthesized timeout failure. -/
def timeoutErrorMsg : String := "Timeout waiting for extension response"

/-- The failure Result the timeout handler writes to the client. -/
def timeoutResult (rid : ReqId) : Result :=
  { requestId := some rid, success := false, data := none, error := some timeoutErrorMsg }

/-- The failure Result written when a submitted line fails to parse:
only a success flag and the parser error text, no requestId. -/
def parseFailResult (msg : String) : Result :=
  { requestId := none, success := false, data := none, error := some msg }

/-- Outcome of `JSON.parse` on one submitted line: either a parsed
command or the thrown error message. -/
inductive Line where
  | ok (c : Command)
  | bad (msg : String)
deriving DecidableEq, Repr

/-- The socket data handler, per nonempty line: parse; on success arm
a fresh 30 s timer, register the pending call (overwriting any entry
at the same requestId) and push the command; on failure write a
failure Result back and change nothing else. -/
def handleLine (s : DaemonState) (conn : ConnId) (l : Line) : DaemonState :=
  match l with
  | .ok c =>
    { s with
      armed := s.armed ++ [(s.nextTimer, c.requestId, conn)],
      pendingRequests := setEntry c.requestId ⟨conn, s.nextTimer⟩ s.pendingRequests,
      commandQueue := s.commandQueue ++ [c],
      nextTimer := s.nextTimer + 1 }
  | .bad msg =>
    { s with writes := s.writes ++ [(conn, parseFailResult msg)] }

/-- A timer firing. The runtime disarms the timer; the callback then
checks `pendingRequests.has(requestId)`: if present it deletes the
entry and writes the timeout failure to the captured socket, if absent
it does nothing. A handle that is not armed cannot fire. -/
def fireTimer (s : DaemonState) (t : TimerId) : DaemonState :=
  match lookupTimer t s.armed with
  | none => s
  | some (rid, conn) =>
    let s₁ := { s with armed := clearTimer t s.armed }
    match lookupEntry rid s₁.pendingRequests with
    | none => s₁
    | some _ =>
      { s₁ with
        pendingRequests := eraseEntry rid s₁.pendingRequests,
        writes := s₁.writes ++ [(conn, timeoutResult rid)] }

/-- Response of the pull endpoint: HTTP status and at most one command. -/
abbrev PollResp := Nat × Option Command

/-- GET /poll: nonempty queue shifts the head and returns it with 200;
empty queue returns 204 and no body. -/
def handlePoll (s : DaemonState) : PollResp × DaemonState :=
  match s.commandQueue with
  | [] => ((204, none), s)
  | c :: rest =>
    ((200, some c), { s with commandQueue := rest, polled := s.polled ++ [c] })

/-- POST /response with a parsed Result body: if a pending call
matches its requestId, cancel that timer, delete the entry and write
the Result through to the stored socket; in every case reply 200 with
body OK. A body without a requestId field matches nothing. -/
def handleResponse (s : DaemonState) (r : Result) : (Nat × String) × DaemonState :=
  match r.requestId with
  | none => ((200, "OK"), s)
  | some rid =>
    match lookupEntry rid s.pendingRequests with
    | none => ((200, "OK"), s)
    | some e =>
      ((200, "OK"),
        { s with
          armed := clearTimer e.timeout s.armed,
          pendingRequests := eraseEntry rid s.pendingRequests,
          writes := s.writes ++ [(e.socket, r)] })

/-- GET /health: status ok plus the pending-call count and the queue
depth, touching nothing. -/
def handleHealth (s : DaemonState) : (Nat × (String × Nat × Nat)) × DaemonState :=
  ((200, ("ok", s.pendingRequests.length, s.commandQueue.length)), s)

/-- The events of the single-threaded loop. `close` covers both the
end and the error handler of a client socket, whose bodies only log. -/
inductive Event where
  | recvLine (conn : ConnId) (l : Line)
  | poll
  | response (r : Result)
  | fire (t : TimerId)
  | health
  | close (conn : ConnId)
deriving DecidableEq, Repr

/-- One atomic turn of the event loop. -/
def step (s : DaemonState) (e : Event) : DaemonState :=
  match e with
  | .recvLine conn l => handleLine s conn l
  | .poll => (handlePoll s).2
  | .response r => (handleResponse s r).2
  | .fire t => fireTimer s t
  | .health => (handleHealth s).2
  | .close _ => s

/-- Run a trace of events from daemon start. -/
def run (es : List Event) : DaemonState :=
  es.foldl step initState

/-! ### Counting instrumentation for delivery properties -/

/-- How many Results carrying a given requestId were written to client
sockets. -/
def wCount (rid : ReqId) (s : DaemonState) : Nat :=
  s.writes.countP (fun w => decide (w.2.requestId = some rid))

/-- Whether a pending call for the given requestId is registered, as
0 or 1 (the correlation map holds at most one entry per key). -/
def pendBit (rid : ReqId) (s : DaemonState) : Nat :=
  if (lookupEntry rid s.pendingRequests).isSome then 1 else 0

/-- How many accepted submissions a single event contributes for a
given requestId: 1 for a parsed line with that id, 0 otherwise. -/
def subBit (rid : ReqId) : Event → Nat
  | .recvLine _ (.ok c) => if c.requestId = rid then 1 else 0
  | _ => 0

/-- How many accepted submissions in a trace carry a given requestId. -/
def subCount (rid : ReqId) : List Event → Nat
  | [] => 0
  | e :: es => subBit rid e + subCount rid es

/-- The accepted submissions of a trace, in arrival order. -/
def accepted : List Event → List Command
  | [] => []
  | .recvLine _ (.ok c) :: es => c :: accepted es
  | _ :: es => accepted es

/-! ### Association-list lemmas -/

theorem lookupEntry_setEntry_self (rid : ReqId) (e : Entry) (l : List (ReqId × Entry)) :
    lookupEntry rid (setEntry rid e l) = some e := by
  induction l with
  | nil => simp [setEntry, lookupEntry]
  | cons p rest ih =>
    by_cases h : p.1 = rid
    · simp [setEntry, h, lookupEntry]
    · simp [setEntry, h, lookupEntry, ih]

theorem lookupEntry_setEntry_ne (rid rid₂ : ReqId) (e : Entry) (l : List (ReqId × Entry))
    (h : rid₂ ≠ rid) : lookupEntry rid₂ (setEntry rid e l) = lookupEntry rid₂ l := by
  have h₂ : rid ≠ rid₂ := Ne.symm h
  induction l with
  | nil => simp [setEntry, lookupEntry, h₂]
  | cons p rest ih =>
    by_cases hp : p.1 = rid
    · simp [setEntry, hp, lookupEntry, h₂]
    · simp [setEntry, hp, lookupEntry, ih]

theorem lookupEntry_eraseEntry_self (rid : ReqId) (l : List (ReqId × Entry)) :
    lookupEntry rid (eraseEntry rid l) = none := by
  induction l with
  | nil => simp [eraseEntry, lookupEntry]
  | cons p rest ih =>
    simp only [eraseEntry] at ih ⊢
    by_cases h : p.1 = rid
    · simpa [List.filter_cons, h] using ih
    · simpa [List.filter_cons, h, lookupEntry] using ih

theorem lookupEntry_eraseEntry_ne (rid rid₂ : ReqId) (l : List (ReqId × Entry))
    (h : rid₂ ≠ rid) : lookupEntry rid₂ (eraseEntry rid l) = lookupEntry rid₂ l := by
  have h₂ : rid ≠ rid₂ := Ne.symm h
  induction l with
  | nil => simp [eraseEntry, lookupEntry]
  | cons p rest ih =>
    simp only [eraseEntry] at ih ⊢
    by_cases hp : p.1 = rid
    · simpa [List.filter_cons, hp, lookupEntry, h₂] using ih
    · by_cases hq : p.1 = rid₂
      · simp [List.filter_cons, hp, hq, lookupEntry, h]
      · simpa [List.filter_cons, hp, hq, lookupEntry] using ih

/-! ### The single-delivery invariant

Removal from the correlation map is the single point of truth: every
step that writes a Result carrying a requestId also removes the entry
for that requestId, and only an accepted submission can create an
entry. Hence, across one step, written-count plus pending-bit grows by
at most the number of submissions the step accepts. -/

theorem step_bound (rid : ReqId) (s : DaemonState) (e : Event) :
    wCount rid (step s e) + pendBit rid (step s e) ≤
      wCount rid s + pendBit rid s + subBit rid e := by
  cases e with
  | recvLine conn l =>
    cases l with
    | ok c =>
      by_cases h : c.requestId = rid
      · subst h
        simp [step, handleLine, wCount, pendBit, subBit,
          lookupEntry_setEntry_self]
      · simp [step, handleLine, wCount, pendBit, subBit, h,
          lookupEntry_setEntry_ne c.requestId rid ⟨conn, s.nextTimer⟩
            s.pendingRequests (Ne.symm h)]
    | bad msg =>
      simp [step, handleLine, wCount, pendBit, subBit, parseFailResult,
        List.countP_append, List.countP_cons]
  | poll =>
    cases hq : s.commandQueue with
    | nil => simp [step, handlePoll, hq]
    | cons c rest => simp [step, handlePoll, hq, wCount, pendBit, subBit]
  | response r =>
    cases hr : r.requestId with
    | none => simp [step, handleResponse, hr]
    | some rid₂ =>
      cases hl : lookupEntry rid₂ s.pendingRequests with
      | none => simp [step, handleResponse, hr, hl]
      | some en =>
        by_cases h : rid₂ = rid
        · subst h
          simp [step, handleResponse, hr, hl, wCount, pendBit, subBit,
            List.countP_append, List.countP_cons, hr,
            lookupEntry_eraseEntry_self]
        · simp [step, handleResponse, hr, hl, wCount, pendBit, subBit,
            List.countP_append, List.countP_cons, hr, h,
            lookupEntry_eraseEntry_ne rid₂ rid s.pendingRequests (Ne.symm h)]
  | fire t =>
    cases ht : lookupTimer t s.armed with
    | none => simp [step, fireTimer, ht]
    | some pr =>
      obtain ⟨rid₂, conn⟩ := pr
      cases hl : lookupEntry rid₂ s.pendingRequests with
      | none => simp [step, fireTimer, ht, hl, wCount, pendBit, subBit]
      | some en =>
        by_cases h : rid₂ = rid
        · subst h
          simp [step, fireTimer, ht, hl, wCount, pendBit, subBit,
            timeoutResult, List.countP_append, List.countP_cons,
            lookupEntry_eraseEntry_self]
        · simp [step, fireTimer, ht, hl, wCount, pendBit, subBit,
            timeoutResult, List.countP_append, List.countP_cons, h,
            lookupEntry_eraseEntry_ne rid₂ rid s.pendingRequests (Ne.symm h)]
  | health => simp [step, handleHealth]
  | close conn => simp [step]

theorem foldl_bound (rid : ReqId) (es : List Event) :
    ∀ s : DaemonState,
      wCount rid (es.foldl step s) + pendBit rid (es.foldl step s) ≤
        wCount rid s + pendBit rid s + subCount rid es := by
  induction es with
  | nil => intro s; simp [subCount]
  | cons e es ih =>
    intro s
    have h₁ := ih (step s e)
    have h₂ := step_bound rid s e
    simp only [List.foldl_cons, subCount]
    omega

/-! ### The queue invariant

Polled commands plus the commands still queued are exactly the
accepted submissions, in submission order: the pull endpoint hands the
executor the global FIFO prefix. -/

/-- The commands one event contributes to the accepted list. -/
def acceptedOf : Event → List Command
  | .recvLine _ (.ok c) => [c]
  | _ => []

theorem accepted_cons (e : Event) (es : List Event) :
    accepted (e :: es) = acceptedOf e ++ accepted es := by
  cases e with
  | recvLine conn l => cases l <;> rfl
  | poll => rfl
  | response r => rfl
  | fire t => rfl
  | health => rfl
  | close conn => rfl

theorem step_queue (s : DaemonState) (e : Event) :
    (step s e).polled ++ (step s e).commandQueue =
      s.polled ++ s.commandQueue ++ acceptedOf e := by
  cases e with
  | recvLine conn l => cases l <;> simp [step, handleLine, acceptedOf]
  | poll => cases hq : s.commandQueue <;> simp [step, handlePoll, hq, acceptedOf]
  | response r =>
    cases hr : r.requestId with
    | none => simp [step, handleResponse, hr, acceptedOf]
    | some rid =>
      cases hl : lookupEntry rid s.pendingRequests <;>
        simp [step, handleResponse, hr, hl, acceptedOf]
  | fire t =>
    cases ht : lookupTimer t s.armed with
    | none => simp [step, fireTimer, ht, acceptedOf]
    | some pr =>
      obtain ⟨rid, conn⟩ := pr
      cases hl : lookupEntry rid s.pendingRequests <;>
        simp [step, fireTimer, ht, hl, acceptedOf]
  | health => simp [step, handleHealth, acceptedOf]
  | close conn => simp [step, acceptedOf]

theorem foldl_queue (es : List Event) :
    ∀ s : DaemonState,
      (es.foldl step s).polled ++ (es.foldl step s).commandQueue =
        s.polled ++ s.commandQueue ++ accepted es := by
  induction es with
  | nil => intro s; simp [accepted]
  | cons e es ih =>
    intro s
    rw [List.foldl_cons, ih (step s e), step_queue s e, accepted_cons]
    simp [List.append_assoc]

/-! ### Claim theorems -/

/-- C1: a submission accepted into the correlation map receives at
most one Result for its requestId — across any trace in which that
requestId is submitted at most once, at most one Result carrying it is
ever written to a client. Moreover, removal from the map is the single
point of truth: a completion that finds the entry absent replies 200
and changes nothing, and a timer that fires with the entry absent
removes no entry and writes nothing. -/
theorem single_result_per_requestId :
    (∀ (es : List Event) (rid : ReqId),
      subCount rid es ≤ 1 → wCount rid (run es) ≤ 1) ∧
    (∀ (s : DaemonState) (r : Result) (rid : ReqId),
      r.requestId = some rid → lookupEntry rid s.pendingRequests = none →
      handleResponse s r = ((200, "OK"), s)) ∧
    (∀ (s : DaemonState) (t : TimerId) (rid : ReqId) (conn : ConnId),
      lookupTimer t s.armed = some (rid, conn) →
      lookupEntry rid s.pendingRequests = none →
      (fireTimer s t).pendingRequests = s.pendingRequests ∧
      (fireTimer s t).writes = s.writes) := by
  refine ⟨?_, ?_, ?_⟩
  · intro es rid hsub
    have h := foldl_bound rid es initState
    have h0 : wCount rid initState = 0 := by simp [wCount, initState]
    have h1 : pendBit rid initState = 0 := by simp [pendBit, initState, lookupEntry]
    unfold run
    omega
  · intro s r rid h₁ h₂
    simp [handleResponse, h₁, h₂]
  · intro s t rid conn h₁ h₂
    simp [fireTimer, h₁, h₂]

/-- Trace for the C1 witness: one accepted submission, then its
completion. -/
def traceA : List Event :=
  [.recvLine 0 (.ok ⟨"navigate", "u", 1⟩),
   .response ⟨some 1, true, some "d", none⟩]

/-- State for the C1 witness: one armed timer whose requestId has no
entry in the correlation map. -/
def stateA : DaemonState :=
  { initState with armed := [(0, 5, 2)] }

theorem single_result_per_requestId_witness :
    (subCount 1 traceA ≤ 1 ∧ wCount 1 (run traceA) ≤ 1) ∧
    (handleResponse initState ⟨some 9, true, none, none⟩ = ((200, "OK"), initState)) ∧
    ((fireTimer stateA 0).pendingRequests = stateA.pendingRequests ∧
      (fireTimer stateA 0).writes = stateA.writes) :=
  ⟨⟨by decide, single_result_per_requestId.1 traceA 1 (by decide)⟩,
   single_result_per_requestId.2.1 initState ⟨some 9, true, none, none⟩ 9
     (by decide) (by decide),
   single_result_per_requestId.2.2 stateA 0 5 2 (by decide) (by decide)⟩

/-- Trace for the C2 counterexample: one accepted submission with
requestId 1 on connection 0, then its timer (handle 0) fires. -/
def traceB : List Event :=
  [.recvLine 0 (.ok ⟨"navigate", "u", 1⟩), .fire 0]

/-- C2 counterexample: when the timer of the pending submission
expires, the failure Result actually written says
"Timeout waiting for extension response", not the claimed
"Timeout waiting for executor response". -/
theorem timeout_message_counterexample :
    (run traceB).writes = [(0, timeoutResult 1)] ∧
    timeoutResult 1 ≠
      { requestId := some 1, success := false, data := none,
        error := some "Timeout waiting for executor response" } := by
  constructor
  · decide
  · decide

/-- C2 (amended): when a timer fires while its requestId is still
pending, the relay removes the pending call and writes back exactly
the failure Result with that requestId, success false and error
"Timeout waiting for extension response"; the timer window is the
hard-coded 30000 ms. -/
theorem timeout_failure_delivery :
    ∀ (s : DaemonState) (t : TimerId) (rid : ReqId) (conn : ConnId) (e : Entry),
      lookupTimer t s.armed = some (rid, conn) →
      lookupEntry rid s.pendingRequests = some e →
      (fireTimer s t).writes = s.writes ++
        [(conn, { requestId := some rid, success := false, data := none,
                  error := some "Timeout waiting for extension response" })] ∧
      lookupEntry rid (fireTimer s t).pendingRequests = none ∧
      timeoutMs = 30000 := by
  intro s t rid conn e h₁ h₂
  refine ⟨?_, ?_, rfl⟩
  · simp [fireTimer, h₁, h₂, timeoutResult, timeoutErrorMsg]
  · simp [fireTimer, h₁, h₂, lookupEntry_eraseEntry_self]

/-- State for the C2 witness: connection 3 has requestId 1 pending
with timer handle 0 armed. -/
def stateB : DaemonState :=
  { initState with
    pendingRequests := [(1, ⟨3, 0⟩)], armed := [(0, 1, 3)], nextTimer := 1 }

theorem timeout_failure_delivery_witness :
    (fireTimer stateB 0).writes = stateB.writes ++
      [(3, { requestId := some 1, success := false, data := none,
             error := some "Timeout waiting for extension response" })] ∧
    lookupEntry 1 (fireTimer stateB 0).pendingRequests = none ∧
    timeoutMs = 30000 :=
  timeout_failure_delivery stateB 0 1 3 ⟨3, 0⟩ (by decide) (by decide)

/-- C3: a posted Result whose requestId matches no pending call — the
id is unknown, already timed out, or already completed — gets the
unconditional 200 OK reply and the state is returned untouched: no
table change, no queue change, no write to any client. -/
theorem unmatched_completion_noop :
    ∀ (s : DaemonState) (r : Result),
      (∀ rid : ReqId, r.requestId = some rid →
        lookupEntry rid s.pendingRequests = none) →
      handleResponse s r = ((200, "OK"), s) := by
  intro s r h
  cases hr : r.requestId with
  | none => simp [handleResponse, hr]
  | some rid => simp [handleResponse, hr, h rid hr]

/-- State for the C3 witness: a nonempty queue and a pending call for
requestId 1, none for requestId 99. -/
def stateC : DaemonState :=
  { initState with
    pendingRequests := [(1, ⟨0, 0⟩)], armed := [(0, 1, 0)],
    commandQueue := [⟨"click", "p", 7⟩], nextTimer := 1 }

theorem unmatched_completion_noop_witness :
    handleResponse stateC ⟨some 99, true, some "d", none⟩ = ((200, "OK"), stateC) :=
  unmatched_completion_noop stateC ⟨some 99, true, some "d", none⟩
    (fun rid h => by injection h with h₂; subst h₂; decide)

/-- C4: global FIFO delivery — after any trace, the commands already
handed to the executor followed by the commands still queued are
exactly the accepted submissions in submission order, regardless of
which connection each came from; so successive polls dequeue in
exactly submission order. -/
theorem fifo_delivery :
    ∀ es : List Event, (run es).polled ++ (run es).commandQueue = accepted es := by
  intro es
  have h := foldl_queue es initState
  simpa [run, initState] using h

/-- C5: GET /poll on an empty queue replies 204 with no body and
returns the state unchanged; on a nonempty queue it replies 200 whose
body is exactly the head command and removes exactly that head,
leaving the correlation map, the timers and the client writes
untouched. -/
theorem poll_dequeues_head :
    ∀ s : DaemonState,
      (s.commandQueue = [] → handlePoll s = ((204, none), s)) ∧
      (∀ (c : Command) (rest : List Command), s.commandQueue = c :: rest →
        (handlePoll s).1 = (200, some c) ∧
        (handlePoll s).2.commandQueue = rest ∧
        (handlePoll s).2.pendingRequests = s.pendingRequests ∧
        (handlePoll s).2.armed = s.armed ∧
        (handlePoll s).2.writes = s.writes ∧
        (handlePoll s).2.nextTimer = s.nextTimer) := by
  intro s
  constructor
  · intro h; simp [handlePoll, h]
  · intro c rest h; simp [handlePoll, h]

/-- State for the C5 witness: one queued command, one pending call. -/
def stateD : DaemonState :=
  { initState with
    commandQueue := [⟨"navigate", "u", 4⟩],
    pendingRequests := [(4, ⟨1, 0⟩)], armed := [(0, 4, 1)], nextTimer := 1 }

theorem poll_dequeues_head_witness :
    (handlePoll initState = ((204, none), initState)) ∧
    ((handlePoll stateD).1 = (200, some ⟨"navigate", "u", 4⟩) ∧
      (handlePoll stateD).2.commandQueue = [] ∧
      (handlePoll stateD).2.pendingRequests = stateD.pendingRequests ∧
      (handlePoll stateD).2.armed = stateD.armed ∧
      (handlePoll stateD).2.writes = stateD.writes ∧
      (handlePoll stateD).2.nextTimer = stateD.nextTimer) :=
  ⟨(poll_dequeues_head initState).1 rfl,
   (poll_dequeues_head stateD).2 ⟨"navigate", "u", 4⟩ [] rfl⟩

/-- C6: a line that fails to parse only produces an immediate failure
write on that connection: the correlation map, the command queue, the
armed timers and the timer counter are all left exactly as they were —
no pending call is registered, no timer armed, nothing enqueued. -/
theorem parse_failure_frame :
    ∀ (s : DaemonState) (conn : ConnId) (msg : String),
      (handleLine s conn (.bad msg)).pendingRequests = s.pendingRequests ∧
      (handleLine s conn (.bad msg)).commandQueue = s.commandQueue ∧
      (handleLine s conn (.bad msg)).armed = s.armed ∧
      (handleLine s conn (.bad msg)).nextTimer = s.nextTimer ∧
      (handleLine s conn (.bad msg)).writes =
        s.writes ++ [(conn, parseFailResult msg)] := by
  intro s conn msg
  refine ⟨rfl, rfl, rfl, rfl, rfl⟩

/-- C7: a submission whose requestId is already pending overwrites the
entry: afterwards the map holds exactly the new connection and the
fresh timer under that requestId, while any timer armed earlier for
that requestId stays armed; and when such a still-armed timer fires
with some entry present at its requestId, it removes that entry and
writes the timeout failure to the connection the timer captured — the
earlier caller. -/
theorem duplicate_requestId_replaces :
    ∀ (s : DaemonState) (c : Command) (connNew : ConnId) (e : Entry),
      lookupEntry c.requestId s.pendingRequests = some e →
      (lookupEntry c.requestId (handleLine s connNew (.ok c)).pendingRequests =
          some ⟨connNew, s.nextTimer⟩) ∧
      (∀ (tOld : TimerId) (connOld : ConnId),
        (tOld, c.requestId, connOld) ∈ s.armed →
        (tOld, c.requestId, connOld) ∈ (handleLine s connNew (.ok c)).armed) ∧
      (∀ (s₂ : DaemonState) (tOld : TimerId) (connOld : ConnId) (e₂ : Entry),
        lookupTimer tOld s₂.armed = some (c.requestId, connOld) →
        lookupEntry c.requestId s₂.pendingRequests = some e₂ →
        (fireTimer s₂ tOld).writes =
          s₂.writes ++ [(connOld, timeoutResult c.requestId)] ∧
        lookupEntry c.requestId (fireTimer s₂ tOld).pendingRequests = none) := by
  intro s c connNew e h
  refine ⟨?_, ?_, ?_⟩
  · simp [handleLine, lookupEntry_setEntry_self]
  · intro tOld connOld hm
    simp only [handleLine]
    exact List.mem_append_left _ hm
  · intro s₂ tOld connOld e₂ h₁ h₂
    constructor
    · simp [fireTimer, h₁, h₂]
    · simp [fireTimer, h₁, h₂, lookupEntry_eraseEntry_self]

/-- State for the C7 witness: connection 0 has requestId 1 pending
with timer 0 armed; connection 2 then resubmits requestId 1. -/
def stateE : DaemonState :=
  { initState with
    pendingRequests := [(1, ⟨0, 0⟩)], armed := [(0, 1, 0)], nextTimer := 1 }

theorem duplicate_requestId_replaces_witness :
    (lookupEntry 1 (handleLine stateE 2 (.ok ⟨"click", "p", 1⟩)).pendingRequests =
        some ⟨2, 1⟩) ∧
    ((0, 1, 0) ∈ (handleLine stateE 2 (.ok ⟨"click", "p", 1⟩)).armed) ∧
    ((fireTimer stateE 0).writes = stateE.writes ++ [(0, timeoutResult 1)] ∧
      lookupEntry 1 (fireTimer stateE 0).pendingRequests = none) :=
  ⟨(duplicate_requestId_replaces stateE ⟨"click", "p", 1⟩ 2 ⟨0, 0⟩ (by decide)).1,
   (duplicate_requestId_replaces stateE ⟨"click", "p", 1⟩ 2 ⟨0, 0⟩ (by decide)).2.1
     0 0 (by decide),
   (duplicate_requestId_replaces stateE ⟨"click", "p", 1⟩ 2 ⟨0, 0⟩ (by decide)).2.2
     stateE 0 0 ⟨0, 0⟩ (by decide) (by decide)⟩

/-- C8: a client connection closing changes no relay state — the end
and error handlers only log, so the step is the identity: pending
entries, armed timers and queued commands all survive. A Result later
delivered for one of those entries is processed normally (the write to
the closed handle fails asynchronously and is only logged): it removes
exactly its own entry, leaves the queue unchanged, and every other
requestId still maps to the same pending call. -/
theorem disconnect_frame :
    ∀ (s : DaemonState) (conn : ConnId),
      step s (.close conn) = s ∧
      (∀ (r : Result) (rid : ReqId) (e : Entry),
        r.requestId = some rid →
        lookupEntry rid s.pendingRequests = some e →
        (handleResponse s r).2.commandQueue = s.commandQueue ∧
        (handleResponse s r).2.pendingRequests = eraseEntry rid s.pendingRequests ∧
        (∀ rid₂ : ReqId, rid₂ ≠ rid →
          lookupEntry rid₂ (handleResponse s r).2.pendingRequests =
            lookupEntry rid₂ s.pendingRequests)) := by
  intro s conn
  refine ⟨rfl, ?_⟩
  intro r rid e h₁ h₂
  refine ⟨?_, ?_, ?_⟩
  · simp [handleResponse, h₁, h₂]
  · simp [handleResponse, h₁, h₂]
  · intro rid₂ hne
    simp [handleResponse, h₁, h₂,
      lookupEntry_eraseEntry_ne rid rid₂ s.pendingRequests hne]

/-- State for the C8 witness: two pending calls on connection 0, both
timers armed, one command still queued. -/
def stateF : DaemonState :=
  { initState with
    pendingRequests := [(1, ⟨0, 0⟩), (2, ⟨0, 1⟩)], armed := [(0, 1, 0), (1, 2, 0)],
    commandQueue := [⟨"click", "p", 2⟩], nextTimer := 2 }

theorem disconnect_frame_witness :
    step stateF (.close 0) = stateF ∧
    ((handleResponse stateF ⟨some 1, true, some "d", none⟩).2.commandQueue =
        stateF.commandQueue ∧
      (handleResponse stateF ⟨some 1, true, some "d", none⟩).2.pendingRequests =
        eraseEntry 1 stateF.pendingRequests ∧
      lookupEntry 2
          (handleResponse stateF ⟨some 1, true, some "d", none⟩).2.pendingRequests =
        lookupEntry 2 stateF.pendingRequests) :=
  ⟨(disconnect_frame stateF 0).1,
   ((disconnect_frame stateF 0).2 ⟨some 1, true, some "d", none⟩ 1 ⟨0, 0⟩
       (by decide) (by decide)).1,
   ((disconnect_frame stateF 0).2 ⟨some 1, true, some "d", none⟩ 1 ⟨0, 0⟩
       (by decide) (by decide)).2.1,
   ((disconnect_frame stateF 0).2 ⟨some 1, true, some "d", none⟩ 1 ⟨0, 0⟩
       (by decide) (by decide)).2.2 2 (by decide)⟩

/-- C9: GET /health replies 200 with the ok status, the current
pending-call count and the current queue depth, and returns the state
it was given: queue, map and timers untouched. -/
theorem health_read_only :
    ∀ s : DaemonState,
      handleHealth s =
        ((200, ("ok", s.pendingRequests.length, s.commandQueue.length)), s) :=
  fun _ => rfl

/-- C10: the Result written back on a parse failure carries success
false and the parser error text but no requestId at all, so it cannot
be correlated to a particular submission on a pipelining connection. -/
theorem parse_failure_no_requestId :
    ∀ (s : DaemonState) (conn : ConnId) (msg : String),
      (handleLine s conn (.bad msg)).writes =
        s.writes ++ [(conn, parseFailResult msg)] ∧
      (parseFailResult msg).requestId = none ∧
      (parseFailResult msg).success = false ∧
      (parseFailResult msg).error = some msg :=
  fun _ _ _ => ⟨rfl, rfl, rfl, rfl⟩

end Relay
